import Mathlib

/-!
Verification of the core of the `anyhow` error library: the causal-chain
iterator (chain.rs), the context combinator (context.rs), the message
wrappers (wrapper.rs) and the human-readable renderings (fmt.rs).

An error value is modelled by its observable behaviour through the standard
error interface: a display text and an optional source.  The payload kinds
the library itself defines (`MessageError`, `DisplayError`, `ContextError`)
are constructors of the model; `custom` / `customS` stand for arbitrary
user-supplied error objects without and with a source.
-/

/-- A value implementing the standard error interface, observed through its
display text and its `source`.  `messageE` / `displayE` embed
`MessageError` / `DisplayError` from wrapper.rs, `contextE` embeds
`ContextError` (struct from error.rs, impls in context.rs), and `custom` /
`customS` are arbitrary foreign errors with the given display text and
without / with a source. -/
inductive Err where
  | messageE (m : String)
  | displayE (m : String)
  | contextE (c : String) (inner : Err)
  | custom (d : String)
  | customS (d : String) (inner : Err)
deriving DecidableEq

/-- The `Display` impls: `MessageError` and `DisplayError` show the wrapped
message (wrapper.rs), `ContextError` shows the context value only
(context.rs, `Display::fmt(&self.context, f)`). -/
def Err.display : Err → String
  | .messageE m => m
  | .displayE m => m
  | .contextE c _ => c
  | .custom d => d
  | .customS d _ => d

/-- The `source` impls: `MessageError` and `DisplayError` use the default
implementation returning none (wrapper.rs lines 35 and 60); `ContextError`
returns its inner error (context.rs, `Some(&self.error)`). -/
def Err.source : Err → Option Err
  | .messageE _ => none
  | .displayE _ => none
  | .contextE _ e => some e
  | .custom _ => none
  | .customS _ e => some e

/-- chain.rs `ChainState`: a cursor is either still linked (following
`source` pointers lazily) or buffered (all remaining items materialized in
a double-ended vector iterator, modelled by a list). -/
inductive ChainState where
  | linked (next : Option Err)
  | buffered (rest : List Err)
deriving DecidableEq

/-- chain.rs `Chain`. -/
structure Chain where
  state : ChainState
deriving DecidableEq

/-- chain.rs `Chain::new`: start linked at the head error. -/
def Chain.new (head : Err) : Chain :=
  ⟨.linked (some head)⟩

/-- The causal chain starting at (and including) a given error: the error,
then its source's chain. -/
def chainListFrom : Err → List Err
  | .messageE m => [.messageE m]
  | .displayE m => [.displayE m]
  | .contextE c e => .contextE c e :: chainListFrom e
  | .custom d => [.custom d]
  | .customS d e => .customS d e :: chainListFrom e

/-- The traversal loop `while let Some(cause) = next { next = cause.source(); … }`
shared by `Chain::next_back` (collecting) and `Chain::len` (counting). -/
def chainList : Option Err → List Err
  | none => []
  | some e => chainListFrom e

/-- chain.rs `Iterator::next`: linked state yields the current error and
advances to its source; buffered state pops the front of the vector. -/
def Chain.next : Chain → Option Err × Chain
  | ⟨.linked none⟩ => (none, ⟨.linked none⟩)
  | ⟨.linked (some e)⟩ => (some e, ⟨.linked e.source⟩)
  | ⟨.buffered rest⟩ => (rest.head?, ⟨.buffered rest.tail⟩)

/-- chain.rs `DoubleEndedIterator::next_back`: a linked cursor first
materializes the whole remaining chain into a vector, pops its last element
and becomes buffered; a buffered cursor pops the back of the vector. -/
def Chain.next_back : Chain → Option Err × Chain
  | ⟨.linked next⟩ =>
    ((chainList next).getLast?, ⟨.buffered (chainList next).dropLast⟩)
  | ⟨.buffered rest⟩ => (rest.getLast?, ⟨.buffered rest.dropLast⟩)

/-- chain.rs `ExactSizeIterator::len`: a linked cursor counts the traversal
loop's steps; a buffered cursor reports the vector iterator's length. -/
def Chain.len : Chain → Nat
  | ⟨.linked next⟩ => (chainList next).length
  | ⟨.buffered rest⟩ => rest.length

/-- The items a cursor has yet to yield, in forward order. -/
def Chain.items : Chain → List Err
  | ⟨.linked next⟩ => chainList next
  | ⟨.buffered rest⟩ => rest

/-- Call `next` up to `n` times, stopping early once it yields nothing;
returns the collected items and the final cursor. -/
def Chain.nextRun : Chain → Nat → List Err × Chain
  | c, 0 => ([], c)
  | c, n + 1 =>
    match c.next with
    | (none, c1) => ([], c1)
    | (some e, c1) => (e :: (c1.nextRun n).1, (c1.nextRun n).2)

/-- Call `next_back` up to `n` times, stopping early once it yields
nothing; returns the collected items and the final cursor. -/
def Chain.backRun : Chain → Nat → List Err × Chain
  | c, 0 => ([], c)
  | c, n + 1 =>
    match c.next_back with
    | (none, c1) => ([], c1)
    | (some e, c1) => (e :: (c1.backRun n).1, (c1.backRun n).2)

/-- Whether a cursor is in the buffered state. -/
def Chain.isBuffered : Chain → Bool
  | ⟨.linked _⟩ => false
  | ⟨.buffered _⟩ => true

/-- One cursor operation: a forward `next` or a backward `next_back`. -/
inductive ChainOp where
  | fwd
  | bwd
deriving DecidableEq

/-- Apply a sequence of cursor operations, keeping only the final state. -/
def Chain.applyOps : Chain → List ChainOp → Chain
  | c, [] => c
  | c, .fwd :: ops => ((c.next).2).applyOps ops
  | c, .bwd :: ops => ((c.next_back).2).applyOps ops

/-- context.rs `ext_context` as used by the `Result` impl:
`Error::from_context` (error.rs, not among the sources) is modelled from
the spec §4.4: the context value becomes the new display text and the
existing error the cause, i.e. a `ContextError` payload. -/
def ext_context (e : Err) (c : String) : Err :=
  .contextE c e

/-- Modelled from the spec: `Error::from_display` lives in error.rs which
is not among the sources; per the spec (§4.3 ad-hoc path, §4.4) it builds a
container whose payload is the message-only `DisplayError` wrapper from
wrapper.rs, with no cause. -/
def Error.from_display (m : String) : Err :=
  .displayE m

/-- context.rs `Context::context` for `Result<T, E>`. -/
def resultContext {α : Type} (r : Except Err α) (c : String) : Except Err α :=
  match r with
  | .ok v => .ok v
  | .error e => .error (ext_context e c)

/-- context.rs `Context::with_context` for `Result<T, E>`: the thunk is
forced only in the `Err` branch. -/
def resultWithContext {α : Type} (r : Except Err α) (f : Unit → String) :
    Except Err α :=
  match r with
  | .ok v => .ok v
  | .error e => .error (ext_context e (f ()))

/-- context.rs `Context::context` for `Option<T>`. -/
def optionContext {α : Type} (o : Option α) (c : String) : Except Err α :=
  match o with
  | some v => .ok v
  | none => .error (Error.from_display c)

/-- context.rs `Context::with_context` for `Option<T>`. -/
def optionWithContext {α : Type} (o : Option α) (f : Unit → String) :
    Except Err α :=
  match o with
  | some v => .ok v
  | none => .error (Error.from_display (f ()))

/-- Rust `str::split('\n')` over the character list: the pieces between
newline characters, keeping empty pieces. -/
def splitLines : List Char → List (List Char)
  | [] => [[]]
  | ch :: rest =>
    match splitLines rest with
    | [] => if ch = '\n' then [[], []] else [[ch]]
    | piece :: pieces =>
      if ch = '\n' then [] :: piece :: pieces else (ch :: piece) :: pieces

/-- Rust `s.split('\n')` on a string. -/
def strSplitLines (s : String) : List String :=
  (splitLines s.data).map String.mk

/-- Rust `str::starts_with` for a string pattern. -/
def rustStartsWith (s pat : String) : Bool :=
  pat.data.isPrefixOf s.data

/-- Drop the first `n` characters of a string (Rust byte range `n..` on
ASCII text). -/
def strDrop (s : String) (n : Nat) : String :=
  String.mk (s.data.drop n)

/-- A run of `n` spaces. -/
def spaces (n : Nat) : String :=
  String.mk (List.replicate n ' ')

/-- The Rust format specifier `{: >5}`: the decimal digits right-aligned in
a field of width 5, space-filled. -/
def numberField (n : Nat) : String :=
  spaces (5 - (toString n).length) ++ toString n

/-- fmt.rs `Indented::write_str`, first-line prefix: a numbered line gets
the width-5 number field and a colon-space; an unnumbered line gets four
spaces. -/
def firstLineStart : Option Nat → String
  | some n => numberField n ++ ": "
  | none => spaces 4

/-- fmt.rs `Indented::write_str`, continuation-line indent: seven spaces
when numbered, four when not. -/
def contIndent : Option Nat → String
  | some _ => spaces 7
  | none => spaces 4

/-- The loop body of fmt.rs `Indented::write_str` over the enumerated
split lines, carrying the `started` flag. -/
def writeLoop (number : Option Nat) : List (Nat × String) → Bool → String
  | [], _ => ""
  | (_, line) :: rest, false =>
    firstLineStart number ++ line ++ writeLoop number rest true
  | (i, line) :: rest, true =>
    (if 0 < i then "\n" ++ contIndent number ++ line else line) ++
      writeLoop number rest true

/-- One call to fmt.rs `Indented::write_str` on a fresh writer
(`started = false`): split the text on newlines and run the loop. -/
def Indented.writeStr (number : Option Nat) (s : String) : String :=
  writeLoop number (strSplitLines s).enum false

/-- Rust `str::trim_end` as used in fmt.rs: drop trailing whitespace. -/
def rustTrimEnd (s : String) : String :=
  String.mk ((s.data.reverse.dropWhile Char.isWhitespace).reverse)

/-- fmt.rs `ErrorImpl::display`: the head error's text and, in alternate
mode, `": " + text` for each further cause of the chain. -/
def ErrorImpl.display (e : Err) (alternate : Bool) : String :=
  e.display ++
    (if alternate then
      String.join (((chainList (some e)).drop 1).map fun cause =>
        ": " ++ cause.display)
    else "")

/-- fmt.rs `ErrorImpl::debug` (non-alternate): the head error's text, then
a "Caused by:" section listing every cause (numbered from the enumeration
exactly when there is more than one), then, when a trace was captured
(modelled as `some` backtrace text), a blank line and the backtrace block. -/
def ErrorImpl.debug (e : Err) (backtrace : Option String) : String :=
  e.display ++
    (match e.source with
     | none => ""
     | some cause =>
       "\n\nCaused by:" ++
         String.join ((chainList (some cause)).enum.map fun p =>
           "\n" ++ Indented.writeStr
             (if (cause.source).isSome then some p.1 else none)
             (p.2.display))) ++
    (match backtrace with
     | none => ""
     | some bt =>
       "\n\n" ++
         (if rustStartsWith bt "stack backtrace:" then
           rustTrimEnd ("S" ++ strDrop bt 1)
         else
           "Stack backtrace:\n" ++ rustTrimEnd bt))

theorem chainList_some (e : Err) :
    chainList (some e) = e :: chainList e.source := by
  cases e <;> rfl

theorem Chain.next_fst (c : Chain) : (c.next).1 = c.items.head? := by
  obtain ⟨st⟩ := c
  cases st with
  | linked next =>
    cases next with
    | none => rfl
    | some e => simp [Chain.next, Chain.items, chainList_some]
  | buffered rest => rfl

theorem Chain.next_snd (c : Chain) : ((c.next).2).items = c.items.tail := by
  obtain ⟨st⟩ := c
  cases st with
  | linked next =>
    cases next with
    | none => rfl
    | some e => simp [Chain.next, Chain.items, chainList_some]
  | buffered rest => rfl

theorem Chain.back_fst (c : Chain) : (c.next_back).1 = c.items.getLast? := by
  obtain ⟨st⟩ := c
  cases st <;> rfl

theorem Chain.back_snd (c : Chain) :
    ((c.next_back).2).items = c.items.dropLast := by
  obtain ⟨st⟩ := c
  cases st <;> rfl

theorem Chain.len_items (c : Chain) : c.len = c.items.length := by
  obtain ⟨st⟩ := c
  cases st <;> rfl

theorem Chain.nextRun_spec (n : Nat) (c : Chain) :
    (c.nextRun n).1 = c.items.take n ∧
      ((c.nextRun n).2).items = c.items.drop n := by
  induction n generalizing c with
  | zero => simp [Chain.nextRun]
  | succ n ih =>
    have h1 := c.next_fst
    have h2 := c.next_snd
    rcases hcn : c.next with ⟨o, c1⟩
    rw [hcn] at h1 h2
    simp only at h1 h2
    cases hi : c.items with
    | nil =>
      rw [hi] at h1 h2
      simp only [List.head?] at h1
      subst h1
      simp [Chain.nextRun, hcn, hi, h2]
    | cons a t =>
      rw [hi] at h1 h2
      simp only [List.head?] at h1
      subst h1
      have iht := ih c1
      simp [Chain.nextRun, hcn, hi, h2, iht.1, iht.2]

theorem Chain.backRun_spec (n : Nat) (c : Chain) :
    (c.backRun n).1 = c.items.reverse.take n ∧
      ((c.backRun n).2).items = c.items.take (c.items.length - n) := by
  induction n generalizing c with
  | zero => simp [Chain.backRun]
  | succ n ih =>
    have h1 := c.back_fst
    have h2 := c.back_snd
    rcases hcb : c.next_back with ⟨o, c1⟩
    rw [hcb] at h1 h2
    simp only at h1 h2
    rcases List.eq_nil_or_concat c.items with hi | ⟨L, b, hi⟩
    · rw [hi] at h1 h2
      simp only [List.getLast?] at h1
      subst h1
      simp [Chain.backRun, hcb, hi, h2]
    · rw [List.concat_eq_append] at hi
      rw [hi] at h1 h2
      rw [List.getLast?_concat] at h1
      rw [List.dropLast_concat] at h2
      subst h1
      have iht := ih c1
      constructor
      · simp [Chain.backRun, hcb, hi, iht.1, h2]
      · have hlen : (L ++ [b]).length - (n + 1) = L.length - n := by
          simp [List.length_append]
        rw [Chain.backRun]
        simp only [hcb, hi, hlen]
        rw [List.take_append_of_le_length (Nat.sub_le L.length n)]
        rw [iht.2, h2]

theorem Chain.next_keeps_linked (c : Chain) (h : c.isBuffered = false) :
    ((c.next).2).isBuffered = false := by
  obtain ⟨st⟩ := c
  cases st with
  | linked next => cases next <;> rfl
  | buffered rest => simp [Chain.isBuffered] at h

theorem Chain.back_buffers (c : Chain) :
    ((c.next_back).2).isBuffered = true := by
  obtain ⟨st⟩ := c
  cases st <;> rfl

theorem Chain.next_keeps_buffered (c : Chain) (h : c.isBuffered = true) :
    ((c.next).2).isBuffered = true := by
  obtain ⟨st⟩ := c
  cases st with
  | linked next => simp [Chain.isBuffered] at h
  | buffered rest => rfl

theorem Chain.applyOps_keeps_buffered (ops : List ChainOp) (c : Chain)
    (h : c.isBuffered = true) : (c.applyOps ops).isBuffered = true := by
  induction ops generalizing c with
  | nil => exact h
  | cons op ops ih =>
    cases op with
    | fwd => exact ih _ (c.next_keeps_buffered h)
    | bwd => exact ih _ c.back_buffers

/-- C2: for every chain cursor, after `n` forward `next` calls, exhaustive
backward iteration (with enough budget) yields exactly the not-yet-consumed
items in reverse order — no duplicates, no omissions — and afterwards both
`next` and `next_back` yield nothing. -/
theorem chain_back_after_forward (c : Chain) (n fuel : Nat)
    (h : c.items.length - n ≤ fuel) :
    ((c.nextRun n).1 = c.items.take n) ∧
    ((((c.nextRun n).2).backRun fuel).1 = (c.items.drop n).reverse) ∧
    (((((c.nextRun n).2).backRun fuel).2).next).1 = none ∧
    (((((c.nextRun n).2).backRun fuel).2).next_back).1 = none := by
  have hf := Chain.nextRun_spec n c
  have hit : ((c.nextRun n).2).items = c.items.drop n := hf.2
  have hb := Chain.backRun_spec fuel ((c.nextRun n).2)
  have hempty : ((((c.nextRun n).2).backRun fuel).2).items = [] := by
    rw [hb.2, hit]
    have h0 : (c.items.drop n).length - fuel = 0 := by
      rw [List.length_drop]
      omega
    rw [h0, List.take_zero]
  refine ⟨hf.1, ?_, ?_, ?_⟩
  · rw [hb.1, hit]
    apply List.take_of_length_le
    rw [List.length_reverse, List.length_drop]
    exact h
  · rw [Chain.next_fst, hempty]
    rfl
  · rw [Chain.back_fst, hempty]
    rfl

/-- Witness for C2, the claim's own example: chain `[A, B, C]` with C
terminal; after one forward `next`, backward iteration yields `[C, B]` and
then both ends are exhausted. -/
theorem chain_back_after_forward_witness :
    (Chain.new (Err.customS "A" (Err.customS "B" (Err.custom "C")))).items.length - 1 ≤ 2 ∧
    (((Chain.new (Err.customS "A" (Err.customS "B" (Err.custom "C")))).nextRun 1).1 =
        (Chain.new (Err.customS "A" (Err.customS "B" (Err.custom "C")))).items.take 1 ∧
      ((((Chain.new (Err.customS "A" (Err.customS "B" (Err.custom "C")))).nextRun 1).2).backRun 2).1 =
        (((Chain.new (Err.customS "A" (Err.customS "B" (Err.custom "C")))).items.drop 1).reverse) ∧
      ((((((Chain.new (Err.customS "A" (Err.customS "B" (Err.custom "C")))).nextRun 1).2).backRun 2).2).next).1 = none ∧
      ((((((Chain.new (Err.customS "A" (Err.customS "B" (Err.custom "C")))).nextRun 1).2).backRun 2).2).next_back).1 = none) :=
  ⟨by decide, chain_back_after_forward _ 1 2 (by decide)⟩

/-- C3: for every chain cursor, `len` equals the number of items produced
by exhaustively iterating forward, and also the number produced by
exhaustively iterating backward (any budget at least `len` suffices for
"exhaustively": the runs stop by themselves and the ends stay empty). -/
theorem chain_len_agrees (c : Chain) (fuel : Nat) (h : c.len ≤ fuel) :
    ((c.nextRun fuel).1).length = c.len ∧
    ((((c.nextRun fuel).2).next).1 = none) ∧
    ((c.backRun fuel).1).length = c.len ∧
    ((((c.backRun fuel).2).next_back).1 = none) := by
  have hlen := c.len_items
  have hf := Chain.nextRun_spec fuel c
  have hb := Chain.backRun_spec fuel c
  refine ⟨?_, ?_, ?_, ?_⟩
  · rw [hf.1, List.length_take, hlen, Nat.min_eq_right (hlen ▸ h)]
  · rw [Chain.next_fst, hf.2, List.drop_eq_nil_of_le (hlen ▸ h)]
    rfl
  · rw [hb.1, List.length_take, List.length_reverse, hlen,
      Nat.min_eq_right (hlen ▸ h)]
  · have h0 : c.items.length - fuel = 0 := by omega
    rw [Chain.back_fst, hb.2, h0, List.take_zero]
    rfl

/-- Witness for C3 at a concrete linked cursor of length 2 with budget 5. -/
theorem chain_len_agrees_witness :
    (Chain.new (Err.customS "A" (Err.custom "B"))).len ≤ 5 ∧
    ((((Chain.new (Err.customS "A" (Err.custom "B"))).nextRun 5).1).length =
        (Chain.new (Err.customS "A" (Err.custom "B"))).len ∧
      (((((Chain.new (Err.customS "A" (Err.custom "B"))).nextRun 5).2).next).1 = none) ∧
      (((Chain.new (Err.customS "A" (Err.custom "B"))).backRun 5).1).length =
        (Chain.new (Err.customS "A" (Err.custom "B"))).len ∧
      (((((Chain.new (Err.customS "A" (Err.custom "B"))).backRun 5).2).next_back).1 = none)) :=
  ⟨by decide, chain_len_agrees _ 5 (by decide)⟩

/-- C7: a cursor converts from linked to buffered at most once and only on
the first backward step — forward `next` keeps a linked cursor linked, any
`next_back` leaves the cursor buffered, and once buffered no sequence of
operations ever returns it to the linked state. -/
theorem chain_buffering (c : Chain) :
    (c.isBuffered = false → ((c.next).2).isBuffered = false) ∧
    ((c.next_back).2).isBuffered = true ∧
    (∀ ops : List ChainOp, c.isBuffered = true →
      (c.applyOps ops).isBuffered = true) :=
  ⟨c.next_keeps_linked, c.back_buffers,
    fun ops h => Chain.applyOps_keeps_buffered ops c h⟩

/-- Witness for C7: a fresh linked cursor stays linked under `next`, and a
buffered cursor stays buffered under a mixed operation sequence. -/
theorem chain_buffering_witness :
    (Chain.new (Err.custom "x")).isBuffered = false ∧
    (((Chain.new (Err.custom "x")).next).2).isBuffered = false ∧
    ((Chain.mk (.buffered [Err.custom "x"])).applyOps
      [ChainOp.fwd, ChainOp.bwd, ChainOp.fwd]).isBuffered = true :=
  ⟨by decide, (chain_buffering _).1 (by decide),
    (chain_buffering _).2.2 [ChainOp.fwd, ChainOp.bwd, ChainOp.fwd] (by decide)⟩

/-- C10: the ad-hoc message wrappers report no cause, so a container built
from one is terminal and its chain has length exactly 1. -/
theorem wrapper_no_cause (m : String) :
    (Err.messageE m).source = none ∧
    (Err.displayE m).source = none ∧
    (Chain.new (Err.messageE m)).len = 1 ∧
    (Chain.new (Err.displayE m)).len = 1 :=
  ⟨rfl, rfl, rfl, rfl⟩

/-- C5: `context` / `with_context` on an absent-value `Option` input
produce an `Err` container whose display text is exactly the context value
and whose cause is none; on a present value they return it unchanged. -/
theorem option_context_spec (α : Type) (v : α) (c : String) (f : Unit → String) :
    optionContext (none : Option α) c = .error (Error.from_display c) ∧
    (Error.from_display c).display = c ∧
    (Error.from_display c).source = none ∧
    optionWithContext (none : Option α) f = .error (Error.from_display (f ())) ∧
    (Error.from_display (f ())).display = f () ∧
    (Error.from_display (f ())).source = none ∧
    optionContext (some v) c = .ok v ∧
    optionWithContext (some v) f = .ok v :=
  ⟨rfl, rfl, rfl, rfl, rfl, rfl, rfl, rfl⟩

/-- C6: `with_context` on a `Result` forces the context thunk only on the
failure path: an `Ok` input passes through unchanged — independent of the
thunk — and an `Err` input is wrapped with the thunk's value. -/
theorem with_context_lazy (α : Type) (r : Except Err α) (f : Unit → String) :
    (∀ v, r = .ok v → resultWithContext r f = .ok v ∧
      ∀ g, resultWithContext r f = resultWithContext r g) ∧
    (∀ e, r = .error e →
      resultWithContext r f = .error (Err.contextE (f ()) e)) := by
  constructor
  · rintro v rfl
    exact ⟨rfl, fun g => rfl⟩
  · rintro e rfl
    rfl

/-- Witness for C6 at concrete success and failure inputs. -/
theorem with_context_lazy_witness :
    resultWithContext (Except.ok 7 : Except Err Nat) (fun _ => "ctx") = .ok 7 ∧
    resultWithContext (Except.error (Err.custom "boom") : Except Err Nat)
        (fun _ => "ctx") =
      .error (Err.contextE "ctx" (Err.custom "boom")) :=
  ⟨((with_context_lazy Nat _ _).1 7 rfl).1,
    (with_context_lazy Nat _ _).2 _ rfl⟩

theorem strFoldl_append (l : List String) (x : String) :
    l.foldl (fun r s => r ++ s) x = x ++ l.foldl (fun r s => r ++ s) "" := by
  induction l generalizing x with
  | nil => simp [List.foldl, String.append_empty]
  | cons a l ih =>
    simp only [List.foldl]
    rw [ih (x ++ a), ih ("" ++ a), String.empty_append, String.append_assoc]

theorem strJoin_cons (a : String) (l : List String) :
    String.join (a :: l) = a ++ String.join l := by
  simp only [String.join, List.foldl]
  rw [strFoldl_append l ("" ++ a), String.empty_append]

theorem strJoin_nil : String.join ([] : List String) = "" := rfl

theorem spaces_length (n : Nat) : (spaces n).length = n := by
  simp [spaces, String.length]

theorem writeLoop_cont (number : Option Nat) (ls : List String) (k : Nat)
    (hk : 0 < k) :
    writeLoop number (ls.enumFrom k) true =
      String.join (ls.map fun l => "\n" ++ contIndent number ++ l) := by
  induction ls generalizing k with
  | nil => rfl
  | cons x xs ih =>
    show (if 0 < k then "\n" ++ contIndent number ++ x else x) ++
        writeLoop number (xs.enumFrom (k + 1)) true = _
    rw [if_pos hk, ih (k + 1) (Nat.succ_pos k), List.map, strJoin_cons]

theorem writeStr_eq (number : Option Nat) (s l1 : String) (ls : List String)
    (h : strSplitLines s = l1 :: ls) :
    Indented.writeStr number s =
      firstLineStart number ++ l1 ++
        String.join (ls.map fun l => "\n" ++ contIndent number ++ l) := by
  show writeLoop number (strSplitLines s).enum false = _
  rw [h]
  show firstLineStart number ++ l1 ++ writeLoop number (ls.enumFrom 1) true = _
  rw [writeLoop_cont number ls 1 Nat.one_pos]

theorem dropWhile_append_singleton (L : List Char) :
    (L ++ ['S']).dropWhile Char.isWhitespace =
      L.dropWhile Char.isWhitespace ++ ['S'] := by
  induction L with
  | nil => rfl
  | cons a L ih =>
    simp only [List.cons_append, List.dropWhile_cons]
    by_cases ha : Char.isWhitespace a
    · simp [ha, ih]
    · simp [ha]

theorem rustTrimEnd_S (s : String) :
    rustTrimEnd ("S" ++ s) = "S" ++ rustTrimEnd s := by
  have hd : ("S" ++ s).data = 'S' :: s.data := by
    rw [String.data_append]
    rfl
  simp only [rustTrimEnd, hd, List.reverse_cons, dropWhile_append_singleton,
    List.reverse_append]
  rfl

/-- C4: wrapping an error with a context value yields a container whose
display text is exactly the context value and whose cause is the wrapped
error, and — when the wrapped error is terminal — whose extended
(chain-joined) display is the context text, `": "`, then the wrapped
error's display. -/
theorem context_wrap (c : String) (e : Err) :
    (Err.contextE c e).display = c ∧
    (Err.contextE c e).source = some e ∧
    (e.source = none →
      ErrorImpl.display (Err.contextE c e) true = c ++ ": " ++ e.display) := by
  refine ⟨rfl, rfl, fun h => ?_⟩
  have hfrom : chainListFrom e = [e] := by
    have hs := chainList_some e
    rw [h] at hs
    exact hs
  show Err.display (.contextE c e) ++ _ = _
  rw [if_pos rfl]
  show c ++ String.join (((Err.contextE c e :: chainListFrom e).drop 1).map _) = _
  rw [hfrom]
  show c ++ String.join [": " ++ e.display] = _
  rw [strJoin_cons, strJoin_nil, String.append_empty, String.append_assoc]

/-- Witness for C4 at the concrete wrap of a terminal error. -/
theorem context_wrap_witness :
    (Err.custom "boom").source = none ∧
    ((Err.contextE "ctx" (Err.custom "boom")).display = "ctx" ∧
      (Err.contextE "ctx" (Err.custom "boom")).source = some (Err.custom "boom") ∧
      ErrorImpl.display (Err.contextE "ctx" (Err.custom "boom")) true =
        "ctx" ++ ": " ++ (Err.custom "boom").display) :=
  ⟨rfl, (context_wrap "ctx" (Err.custom "boom")).1,
    (context_wrap "ctx" (Err.custom "boom")).2.1,
    (context_wrap "ctx" (Err.custom "boom")).2.2 rfl⟩

/-- C8: in the cause rendering, a numbered cause's continuation lines are
indented by exactly 7 spaces — the width of the 5-character number field
plus `": "` — while an unnumbered cause has its first line and every
continuation line indented by exactly 4 spaces. -/
theorem indented_widths (n : Nat) (s l1 : String) (ls : List String)
    (h : strSplitLines s = l1 :: ls) :
    Indented.writeStr (some n) s =
      numberField n ++ ": " ++ l1 ++
        String.join (ls.map fun l => "\n" ++ spaces 7 ++ l) ∧
    Indented.writeStr none s =
      spaces 4 ++ l1 ++
        String.join (ls.map fun l => "\n" ++ spaces 4 ++ l) ∧
    ((toString n).length ≤ 5 →
      (numberField n ++ ": ").length = (spaces 7).length) := by
  refine ⟨(writeStr_eq (some n) s l1 ls h).trans rfl,
    (writeStr_eq none s l1 ls h).trans rfl, fun hn => ?_⟩
  rw [String.length_append, spaces_length]
  show (spaces (5 - (toString n).length) ++ toString n).length + 2 = 7
  rw [String.length_append, spaces_length, Nat.sub_add_cancel hn]

/-- Witness for C8 on the two-line text "verify\nthis" with number 2. -/
theorem indented_widths_witness :
    strSplitLines "verify\nthis" = ["verify", "this"] ∧
    (Indented.writeStr (some 2) "verify\nthis" =
        numberField 2 ++ ": " ++ "verify" ++
          String.join (["this"].map fun l => "\n" ++ spaces 7 ++ l) ∧
      Indented.writeStr none "verify\nthis" =
        spaces 4 ++ "verify" ++
          String.join (["this"].map fun l => "\n" ++ spaces 4 ++ l) ∧
      ((toString 2).length ≤ 5 →
        (numberField 2 ++ ": ").length = (spaces 7).length)) :=
  ⟨by decide, indented_widths 2 "verify\nthis" "verify" ["this"] (by decide)⟩

/-- C9: when a captured trace is rendered, the debug output appends a blank
line and then: if the trace text starts with the lowercase
"stack backtrace:" prefix, its first character is capitalized in place and
no extra header is emitted; otherwise a fresh "Stack backtrace:" header
line precedes the trace; in both cases the trace text has its trailing
whitespace trimmed. -/
theorem debug_backtrace (e : Err) (bt : String) :
    ErrorImpl.debug e (some bt) =
      ErrorImpl.debug e none ++ "\n\n" ++
        (if rustStartsWith bt "stack backtrace:" then
          "S" ++ rustTrimEnd (strDrop bt 1)
        else "Stack backtrace:\n" ++ rustTrimEnd bt) := by
  cases hbt : rustStartsWith bt "stack backtrace:" <;>
    simp [ErrorImpl.debug, hbt, rustTrimEnd_S, String.append_empty,
      String.append_assoc]

/-- C1 counterexample: with head error "MAIN" and stacked causes "cause1",
"cause2", the debug rendering numbers the causes starting at 0, so the
lines claimed for numbering starting at 1 (with either a 3- or 4-space
lead) do not occur. -/
theorem debug_numbering_cex :
    ErrorImpl.debug
        (Err.customS "MAIN" (Err.customS "cause1" (Err.custom "cause2"))) none =
      "MAIN\n\nCaused by:\n    0: cause1\n    1: cause2" ∧
    "   1: cause1" ∉ strSplitLines (ErrorImpl.debug
      (Err.customS "MAIN" (Err.customS "cause1" (Err.custom "cause2"))) none) ∧
    "    1: cause1" ∉ strSplitLines (ErrorImpl.debug
      (Err.customS "MAIN" (Err.customS "cause1" (Err.custom "cause2"))) none) ∧
    "   2: cause2" ∉ strSplitLines (ErrorImpl.debug
      (Err.customS "MAIN" (Err.customS "cause1" (Err.custom "cause2"))) none) ∧
    "    2: cause2" ∉ strSplitLines (ErrorImpl.debug
      (Err.customS "MAIN" (Err.customS "cause1" (Err.custom "cause2"))) none) := by
  decide

/-- C1 amended: with two stacked causes the debug rendering numbers the
causes starting at 0, producing the lines `"    0: cause1"` and
`"    1: cause2"` (each number right-aligned in a width-5 field followed by
`": "`). -/
theorem debug_numbering (h c1 c2 : String)
    (h1 : strSplitLines c1 = [c1]) (h2 : strSplitLines c2 = [c2]) :
    ErrorImpl.debug (Err.customS h (Err.customS c1 (Err.custom c2))) none =
      h ++ "\n\nCaused by:" ++ "\n" ++ "    0: " ++ c1 ++
        "\n" ++ "    1: " ++ c2 := by
  have w1 : Indented.writeStr (some 0) c1 = "    0: " ++ c1 := by
    rw [writeStr_eq (some 0) c1 c1 [] h1]
    show firstLineStart (some 0) ++ c1 ++ String.join [] = _
    rw [strJoin_nil, String.append_empty]
    congr 1
  have w2 : Indented.writeStr (some 1) c2 = "    1: " ++ c2 := by
    rw [writeStr_eq (some 1) c2 c2 [] h2]
    show firstLineStart (some 1) ++ c2 ++ String.join [] = _
    rw [strJoin_nil, String.append_empty]
    congr 1
  have hl : ErrorImpl.debug (Err.customS h (Err.customS c1 (Err.custom c2))) none =
      h ++ ("\n\nCaused by:" ++
        String.join ["\n" ++ Indented.writeStr (some 0) c1,
          "\n" ++ Indented.writeStr (some 1) c2]) ++ "" := rfl
  rw [hl, w1, w2, strJoin_cons, strJoin_cons, strJoin_nil]
  simp only [String.append_assoc, String.append_empty]

/-- Witness for C1's amended claim at the concrete messages of the claim. -/
theorem debug_numbering_witness :
    strSplitLines "cause1" = ["cause1"] ∧
    strSplitLines "cause2" = ["cause2"] ∧
    ErrorImpl.debug
        (Err.customS "MAIN" (Err.customS "cause1" (Err.custom "cause2"))) none =
      "MAIN" ++ "\n\nCaused by:" ++ "\n" ++ "    0: " ++ "cause1" ++
        "\n" ++ "    1: " ++ "cause2" :=
  ⟨by decide, by decide,
    debug_numbering "MAIN" "cause1" "cause2" (by decide) (by decide)⟩

/-!
Concrete evaluations mirroring the unit tests at the bottom of fmt.rs,
plus sample renderings of the debug output.
-/

example : Indented.writeStr (some 2) "verify\nthis" = "    2: verify\n       this" := by decide

example : Indented.writeStr (some 12) "verify\nthis" = "   12: verify\n       this" := by decide

example : Indented.writeStr none "verify\nthis" = "    verify\n    this" := by decide

example :
    ErrorImpl.debug
      (.customS "MAIN" (.customS "cause1" (.custom "cause2"))) none =
    "MAIN\n\nCaused by:\n    0: cause1\n    1: cause2" := by decide

example :
    ErrorImpl.debug (.customS "MAIN" (.custom "cause1")) none =
    "MAIN\n\nCaused by:\n    cause1" := by decide

example :
    ErrorImpl.debug (.custom "solo") (some "stack backtrace:\n  f0\n  ") =
    "solo\n\nStack backtrace:\n  f0" := by decide

example :
    ErrorImpl.debug (.custom "solo") (some "  f0\n  f1  \n") =
    "solo\n\nStack backtrace:\n  f0\n  f1" := by decide


